import Mathlib

/-!
Verification of the hangar VS Code extension (script selector / dispatcher).

The repository has two observed variants of the dispatcher class `HangarScripts`:

* the TypeScript source (`src/extension/src/extension.ts` together with the
  merged `hangarScripts.ts` class): `scriptSelector(scriptId, scriptPath,
  scriptAttributes)` with three parameters, a synchronous `execSync` call, and
  a webview panel displayed before the script is executed;
* the compiled, promisified JavaScript (`src/unnamed/part_001`,
  `hangarScripts.js`): `scriptSelector(radioButtonId, scriptAttributes)` with
  two parameters, an awaited promisified `exec`, path resolution via
  `getScriptRelativePath`, and informational notifications on success.

Both are embedded below as pure functions producing a trace of observable
events.  The host collaborators (VS Code notifications and panels, the shell)
are represented by the `Event` trace; the external process is an oracle
`ex : String → Except String String` mapping the exact command line handed to
the shell to either captured stdout (`Except.ok`) or the stringified
rejection/error text (`Except.error`).  JavaScript values that may be
`undefined` are embedded as `Option String`; template-literal interpolation of
`undefined` produces the literal text "undefined" and the truthiness test
treats `undefined` and `""` as false, exactly as in JavaScript.
-/

/-- Observable effects of the extension: user-facing notifications, webview
panels, the attribute input prompt, console logging, and commands handed to the
shell for execution. -/
inductive Event where
  | errorNotification (msg : String)
  | infoNotification (msg : String)
  | panel (html : String)
  | promptShown (msg : String)
  | logInfo (msg : String)
  | logError (msg : String)
  | spawn (cmd : String)
deriving DecidableEq, Repr

/-- Template-literal interpolation of a possibly-undefined JavaScript string:
`undefined` interpolates to the literal text "undefined". -/
def jsToString : Option String → String
  | none => "undefined"
  | some s => s

/-- JavaScript truthiness of a possibly-undefined string: `undefined` and the
empty string are falsy, every other string is truthy. -/
def jsTruthy : Option String → Bool
  | none => false
  | some s => s != ""

/-- True exactly on `Event.spawn` events. -/
def isSpawn : Event → Bool
  | Event.spawn _ => true
  | _ => false

/-- True exactly on the `Event.spawn` event carrying the given command. -/
def isSpawnOf (cmd : String) : Event → Bool
  | Event.spawn c => c == cmd
  | _ => false

/-- True exactly on `Event.panel` events. -/
def isPanelEvent : Event → Bool
  | Event.panel _ => true
  | _ => false

/-- Whether a trace spawns any external process. -/
def hasSpawn (tr : List Event) : Bool := tr.any isSpawn

/-- Whether a trace spawns exactly the given command. -/
def hasSpawnOf (tr : List Event) (cmd : String) : Bool := tr.any (isSpawnOf cmd)

/-- Whether a trace displays any webview panel. -/
def hasPanel (tr : List Event) : Bool := tr.any isPanelEvent

/-- Number of processes a trace spawns (a retry would make this exceed 1). -/
def spawnCount (tr : List Event) : Nat := (tr.filter isSpawn).length

/-- True exactly on the error notification carrying the given message. -/
def isErrorNotificationOf (msg : String) : Event → Bool
  | Event.errorNotification m => m == msg
  | _ => false

/-- Whether a trace shows an error notification with the given message. -/
def hasErrorNotificationOf (tr : List Event) (msg : String) : Bool :=
  tr.any (isErrorNotificationOf msg)

/-- True exactly on the error log entry carrying the given message. -/
def isLogErrorOf (msg : String) : Event → Bool
  | Event.logError m => m == msg
  | _ => false

/-- Whether a trace logs an error with the given message. -/
def hasLogErrorOf (tr : List Event) (msg : String) : Bool :=
  tr.any (isLogErrorOf msg)

/-- The string `s` contains `sub` verbatim as a contiguous substring. -/
def containsStr (s sub : String) : Prop := ∃ p q, s = p ++ (sub ++ q)

namespace Promisified

/-- Embeds `hangarScripts.js` (src/unnamed/part_001) line 81: the command
string `cd ${scriptPath} ; ./${scriptName} ${scriptAttributes}` built by raw
template-literal interpolation, with no quoting or escaping. -/
def buildCommand (scriptPath scriptName : String) (scriptAttributes : Option String) : String :=
  "cd " ++ scriptPath ++ " ; ./" ++ scriptName ++ " " ++ jsToString scriptAttributes

/-- Embeds `executeScript` of `hangarScripts.js`: awaits the promisified
`exec` of the built command, returning stdout on success; on rejection it
throws `new Error` whose message is the stringified rejection text.  The
returned trace records the single process spawn attempt. -/
def executeScript (scriptPath scriptName : String) (scriptAttributes : Option String)
    (ex : String → Except String String) : Except String String × List Event :=
  let cmd := buildCommand scriptPath scriptName scriptAttributes
  match ex cmd with
  | Except.ok stdout => (Except.ok stdout, [Event.spawn cmd])
  | Except.error e => (Except.error e, [Event.spawn cmd])

/-- Embeds `getScriptRelativePath` of `hangarScripts.js`:
`path.resolve(__dirname, ../../scripts/${subdirectory})`.  Path resolution and
`vscode.workspace.asRelativePath` are host collaborators; they are modelled as
plain segment concatenation, which preserves the property the code relies on:
the resolved location lies inside the fixed `scripts` base directory under the
given category subdirectory. -/
def getScriptRelativePath (dirname subdirectory : String) : String :=
  dirname ++ "/../../scripts/" ++ subdirectory

/-- Embeds `createRepoSh` of `hangarScripts.js`: resolves the
`repositories/github` script path, awaits `executeScript`, on success logs the
captured stdout and shows the informational notification, on failure logs and
shows the stringified error (the thrown `Error` prints as `Error: ` followed
by its message). -/
def createRepoSh (scriptName : String) (scriptAttributes : Option String)
    (dirname : String) (ex : String → Except String String) : List Event :=
  let scriptPath := getScriptRelativePath dirname "repositories/github"
  match executeScript scriptPath scriptName scriptAttributes ex with
  | (Except.ok stdout, tr) =>
      tr ++ [Event.logInfo ("STDOUT\n" ++ stdout),
             Event.infoNotification "🆙 CREATING REPO ..."]
  | (Except.error e, tr) =>
      tr ++ [Event.logError ("Error: " ++ e),
             Event.errorNotification ("Error: " ++ e)]

/-- Embeds `pipelineGeneratorSh` of `hangarScripts.js`: same shape as
`createRepoSh` with the `pipelines/github` subdirectory and its own
informational message. -/
def pipelineGeneratorSh (scriptName : String) (scriptAttributes : Option String)
    (dirname : String) (ex : String → Except String String) : List Event :=
  let scriptPath := getScriptRelativePath dirname "pipelines/github"
  match executeScript scriptPath scriptName scriptAttributes ex with
  | (Except.ok stdout, tr) =>
      tr ++ [Event.logInfo ("STDOUT\n" ++ stdout),
             Event.infoNotification "⏩ GENERATING PIPELINE ..."]
  | (Except.error e, tr) =>
      tr ++ [Event.logError ("Error: " ++ e),
             Event.errorNotification ("Error: " ++ e)]

/-- Embeds `scriptSelector` of `hangarScripts.js` (two parameters): switches
on the radio button id over the two mapped scripts, defaulting to the
no-script-found error notification. -/
def scriptSelector (radioButtonId : String) (scriptAttributes : Option String)
    (dirname : String) (ex : String → Except String String) : List Event :=
  if radioButtonId = "create-repo.sh" then
    createRepoSh "create-repo.sh" scriptAttributes dirname ex
  else if radioButtonId = "pipeline_generator.sh" then
    pipelineGeneratorSh "pipeline_generator.sh" scriptAttributes dirname ex
  else
    [Event.errorNotification ("🛑 No script found for radio button ID: " ++ radioButtonId)]

end Promisified

namespace TsVariant

/-- Embeds line 133 of the TypeScript `hangarScripts.ts` class: the `execSync`
command `cd ${scriptPath} ; ./${scriptName} ${scriptAttributes}` built by raw
template-literal interpolation.  `scriptPath` and `scriptAttributes` may be
`undefined` at runtime (the run-command handler passes only two arguments), so
both interpolate through `jsToString`. -/
def buildCommand (scriptName : String) (scriptPath scriptAttributes : Option String) : String :=
  "cd " ++ jsToString scriptPath ++ " ; ./" ++ scriptName ++ " " ++ jsToString scriptAttributes

/-- Embeds `executeScript` of the TypeScript class: runs `execSync` on the
built command; on an exception it logs and shows the error message prefixed
with `Error executing script: `.  The oracle's error value stands for the
caught exception's message text. -/
def executeScript (scriptName : String) (scriptPath scriptAttributes : Option String)
    (ex : String → Except String String) : List Event :=
  let cmd := buildCommand scriptName scriptPath scriptAttributes
  match ex cmd with
  | Except.ok _ => [Event.spawn cmd]
  | Except.error e =>
      [Event.spawn cmd,
       Event.logError ("Error executing script: " ++ e),
       Event.errorNotification ("Error executing script: " ++ e)]

/-- Embeds `displayPanel` of the TypeScript class: opens a webview panel with
the given html plus the fixed closing hint, then disposes it. -/
def displayPanel (htmlContent : String) : List Event :=
  [Event.panel (htmlContent ++ "<br><p>You can close this tab now.</p>")]

/-- Embeds `createRepoSh` of the TypeScript class: if the attributes are
truthy it first awaits `displayPanel` and then calls `executeScript`;
otherwise it shows the required-attributes-missing error. -/
def createRepoSh (scriptName : String) (scriptPath scriptAttributes : Option String)
    (ex : String → Except String String) : List Event :=
  if jsTruthy scriptAttributes then
    displayPanel "<h1>🆙 THE REPO HAS BEEN CREATED !!!</h1>"
      ++ executeScript scriptName scriptPath scriptAttributes ex
  else
    [Event.errorNotification "🛑 Required attributes missing"]

/-- Embeds `addSecretSh` of the TypeScript class: same shape as `createRepoSh`
with its own panel message. -/
def addSecretSh (scriptName : String) (scriptPath scriptAttributes : Option String)
    (ex : String → Except String String) : List Event :=
  if jsTruthy scriptAttributes then
    displayPanel "<h1>⏩ THE SECRET HAS BEEN ADDED !!!</h1>"
      ++ executeScript scriptName scriptPath scriptAttributes ex
  else
    [Event.errorNotification "🛑 Required attributes missing"]

/-- Embeds `pipelineGeneratorSh` of the TypeScript class: same shape as
`createRepoSh` with its own panel message. -/
def pipelineGeneratorSh (scriptName : String) (scriptPath scriptAttributes : Option String)
    (ex : String → Except String String) : List Event :=
  if jsTruthy scriptAttributes then
    displayPanel "<h1>⏩ THE PIPELINE HAS BEEN CREATED !!!</h1>"
      ++ executeScript scriptName scriptPath scriptAttributes ex
  else
    [Event.errorNotification "🛑 Required attributes missing"]

/-- Embeds `scriptSelector` of the TypeScript class (three parameters):
switches on the script id over the three mapped scripts, defaulting to the
no-script-found error notification. -/
def scriptSelector (scriptId : String) (scriptPath scriptAttributes : Option String)
    (ex : String → Except String String) : List Event :=
  if scriptId = "create-repo.sh" then
    createRepoSh scriptId scriptPath scriptAttributes ex
  else if scriptId = "add-secret.sh" then
    addSecretSh scriptId scriptPath scriptAttributes ex
  else if scriptId = "pipeline_generator.sh" then
    pipelineGeneratorSh "pipeline_generator.sh" scriptPath scriptAttributes ex
  else
    [Event.errorNotification ("🛑 No script found for radio button ID: " ++ scriptId)]

end TsVariant

/-- Checkbox state of a tree item, as in `vscode.TreeItemCheckboxState`. -/
inductive CheckboxState where
  | checked
  | unchecked
deriving DecidableEq, Repr

/-- A custom radio button of the tree view: its script id and checkbox state. -/
structure RadioButton where
  id : String
  checkboxState : CheckboxState
deriving DecidableEq, Repr

/-- True when the radio button's checkbox state is `Checked`. -/
def isChecked (rb : RadioButton) : Bool :=
  match rb.checkboxState with
  | CheckboxState.checked => true
  | CheckboxState.unchecked => false

/-- Embeds the id-collection loop of the `hangar-cicd.runScripts` handler in
`extension.ts` lines 61-66: the ids of all currently checked radio buttons, in
order. -/
def selectedScriptIds (radioButtons : List RadioButton) : List String :=
  (radioButtons.filter isChecked).map RadioButton.id

/-- Embeds the `hangar-cicd.runScripts` command handler of `extension.ts`
lines 60-75: more than one checked id shows the select-only-one error; exactly
one checked id prompts for attributes via the input box (whose result,
possibly `undefined`, is `inputBoxResult`) and then calls
`hangarScripts.scriptSelector` with ONLY TWO arguments — the selected id and
the entered attributes — so the TypeScript class binds the attributes to its
`scriptPath` parameter and its `scriptAttributes` parameter stays
`undefined`; zero checked ids does nothing. -/
def runScriptsHandler (radioButtons : List RadioButton) (inputBoxResult : Option String)
    (ex : String → Except String String) : List Event :=
  let selected := selectedScriptIds radioButtons
  if selected.length > 1 then
    [Event.errorNotification "ERROR: Please select only one script at a time."]
  else if selected.length = 1 then
    Event.promptShown "✨ Enter ALL attributes separated by space ..."
      :: TsVariant.scriptSelector (selected.headD "") inputBoxResult none ex
  else
    []

namespace SelectionModel

/-- An Action of the Selection Model: id, label and checked state. -/
structure Action where
  id : String
  label : String
  checked : Bool
deriving DecidableEq, Repr

/-- Modelled from the spec: the Selection Model's `toggle(id)` operation is
not present under `src/` (only the catalog construction and the handler that
reads checkbox states are); per the spec it "flips the `checked` state of the
Action with the given id" and "fails silently (no-op) if id unknown". -/
def toggle (id : String) (actions : List Action) : List Action :=
  actions.map fun a => if a.id = id then { a with checked := !a.checked } else a

end SelectionModel

/-- A process oracle that always succeeds with empty stdout. -/
def exOk : String → Except String String := fun _ => Except.ok ""

/-- A process oracle that always succeeds with a fixed sample stdout. -/
def exOkOut : String → Except String String := fun _ => Except.ok "sample output"

/-- A process oracle that always fails with a fixed error text. -/
def exErrBoom : String → Except String String := fun _ => Except.error "boom"

/-- C2: for every action id outside the known mapping, both variants of
`scriptSelector` show an error notification that mentions the unknown id and
spawn no external process. -/
theorem unknownAction_error_no_spawn (i : String) (p a : Option String) (dir : String)
    (ex : String → Except String String)
    (h1 : i ≠ "create-repo.sh") (h2 : i ≠ "add-secret.sh") (h3 : i ≠ "pipeline_generator.sh") :
    TsVariant.scriptSelector i p a ex
        = [Event.errorNotification ("🛑 No script found for radio button ID: " ++ i)]
      ∧ Promisified.scriptSelector i a dir ex
        = [Event.errorNotification ("🛑 No script found for radio button ID: " ++ i)]
      ∧ hasSpawn (TsVariant.scriptSelector i p a ex) = false
      ∧ hasSpawn (Promisified.scriptSelector i a dir ex) = false
      ∧ (∃ pre, ("🛑 No script found for radio button ID: " ++ i) = pre ++ i) := by
  have hts : TsVariant.scriptSelector i p a ex
      = [Event.errorNotification ("🛑 No script found for radio button ID: " ++ i)] := by
    unfold TsVariant.scriptSelector
    rw [if_neg h1, if_neg h2, if_neg h3]
  have hjs : Promisified.scriptSelector i a dir ex
      = [Event.errorNotification ("🛑 No script found for radio button ID: " ++ i)] := by
    unfold Promisified.scriptSelector
    rw [if_neg h1, if_neg h3]
  refine ⟨hts, hjs, ?_, ?_, ⟨"🛑 No script found for radio button ID: ", rfl⟩⟩
  · rw [hts]; rfl
  · rw [hjs]; rfl

/-- Witness for C2 at the spec's scenario: unmapped id "nonexistent.sh" with
attributes "-x" spawns nothing and reports the unknown id. -/
theorem unknownAction_error_no_spawn_instance :
    hasSpawn (Promisified.scriptSelector "nonexistent.sh" (some "-x") "/ext" exOk) = false
      ∧ TsVariant.scriptSelector "nonexistent.sh" (some "/tmp") (some "-x") exOk
        = [Event.errorNotification ("🛑 No script found for radio button ID: " ++ "nonexistent.sh")] := by
  have h := unknownAction_error_no_spawn "nonexistent.sh" (some "/tmp") (some "-x") "/ext" exOk
    (by decide) (by decide) (by decide)
  exact ⟨h.2.2.2.1, h.1⟩

/-- C3: the validation gate of the run command handler: more than one checked
Action shows the select-only-one error and neither prompts nor dispatches;
zero checked Actions is a no-op; exactly one checked Action prompts for
attributes and then calls the dispatcher with that Action's id unchanged. -/
theorem validation_gate_behavior (rbs : List RadioButton) (inputBoxResult : Option String)
    (ex : String → Except String String) :
    ((selectedScriptIds rbs).length > 1 →
        runScriptsHandler rbs inputBoxResult ex
          = [Event.errorNotification "ERROR: Please select only one script at a time."])
      ∧ ((selectedScriptIds rbs).length = 0 → runScriptsHandler rbs inputBoxResult ex = [])
      ∧ (∀ i, selectedScriptIds rbs = [i] →
          runScriptsHandler rbs inputBoxResult ex
            = Event.promptShown "✨ Enter ALL attributes separated by space ..."
                :: TsVariant.scriptSelector i inputBoxResult none ex) := by
  refine ⟨fun h => ?_, fun h => ?_, fun i h => ?_⟩
  · unfold runScriptsHandler
    rw [if_pos h]
  · unfold runScriptsHandler
    rw [if_neg (by omega), if_neg (by omega)]
  · unfold runScriptsHandler
    rw [h]
    rfl

/-- Witness for C3: with exactly the first catalog entry checked, the handler
prompts and dispatches with the id "create-repo.sh" unchanged. -/
theorem validation_gate_behavior_instance :
    runScriptsHandler
        [{ id := "create-repo.sh", checkboxState := CheckboxState.checked },
         { id := "pipeline_generator.sh", checkboxState := CheckboxState.unchecked }]
        (some "-a create -n repo-test -d /tmp/x") exOk
      = Event.promptShown "✨ Enter ALL attributes separated by space ..."
          :: TsVariant.scriptSelector "create-repo.sh" (some "-a create -n repo-test -d /tmp/x") none exOk :=
  (validation_gate_behavior _ _ _).2.2 "create-repo.sh" rfl

/-- C7: in the TypeScript variant the run handler passes only two arguments
to the three-parameter `scriptSelector`, binding the entered attributes to
`scriptPath` and leaving `scriptAttributes` undefined; hence for every known
action id and every entered attribute text the result is the
required-attributes-missing error and no process is spawned. -/
theorem ts_handler_always_missing_attributes (i : String) (rbs : List RadioButton)
    (inputBoxResult p : Option String) (ex : String → Except String String)
    (hk : i = "create-repo.sh" ∨ i = "add-secret.sh" ∨ i = "pipeline_generator.sh")
    (hsel : selectedScriptIds rbs = [i]) :
    TsVariant.scriptSelector i p none ex
        = [Event.errorNotification "🛑 Required attributes missing"]
      ∧ runScriptsHandler rbs inputBoxResult ex
        = [Event.promptShown "✨ Enter ALL attributes separated by space ...",
           Event.errorNotification "🛑 Required attributes missing"]
      ∧ hasSpawn (runScriptsHandler rbs inputBoxResult ex) = false := by
  have hsc : ∀ q : Option String, TsVariant.scriptSelector i q none ex
      = [Event.errorNotification "🛑 Required attributes missing"] := by
    intro q
    rcases hk with h | h | h <;> subst h <;> rfl
  have hh : runScriptsHandler rbs inputBoxResult ex
      = [Event.promptShown "✨ Enter ALL attributes separated by space ...",
         Event.errorNotification "🛑 Required attributes missing"] := by
    unfold runScriptsHandler
    rw [hsel]
    simpa using hsc inputBoxResult
  refine ⟨hsc p, hh, ?_⟩
  rw [hh]; rfl

/-- Witness for C7: one checked create-repo button and a non-empty entered
attribute string still end in the missing-attributes error with no spawn. -/
theorem ts_handler_always_missing_attributes_instance :
    runScriptsHandler [{ id := "create-repo.sh", checkboxState := CheckboxState.checked }]
        (some "-a create -n repo-test -d /tmp/x") exOk
      = [Event.promptShown "✨ Enter ALL attributes separated by space ...",
         Event.errorNotification "🛑 Required attributes missing"] :=
  (ts_handler_always_missing_attributes "create-repo.sh"
    [{ id := "create-repo.sh", checkboxState := CheckboxState.checked }]
    (some "-a create -n repo-test -d /tmp/x") (some "/tmp") exOk
    (Or.inl rfl) rfl).2.1

/-- C1 counterexample: the claim fails as stated — a whitespace-only
attributes string is truthy in the TypeScript variant and spawns a process;
the promisified variant checks attributes not at all and spawns even on empty
attributes; and an unknown id with empty attributes reports the unknown-id
error, not the missing-attributes one. -/
theorem missingAttributes_claim_cex :
    hasSpawn (TsVariant.scriptSelector "create-repo.sh" (some "/tmp") (some " ") exOk) = true
      ∧ hasSpawn (Promisified.scriptSelector "create-repo.sh" (some "") "/ext" exOk) = true
      ∧ TsVariant.scriptSelector "nonexistent.sh" (some "/tmp") (some "") exOk
        = [Event.errorNotification "🛑 No script found for radio button ID: nonexistent.sh"] := by
  refine ⟨rfl, rfl, rfl⟩

/-- C1 amended: in the TypeScript variant, a call to `scriptSelector` with a
known action id and attributes empty or undefined shows the
required-attributes-missing error notification and spawns no process. -/
theorem missingAttributes_known_id (i : String) (p a : Option String)
    (ex : String → Except String String)
    (hk : i = "create-repo.sh" ∨ i = "add-secret.sh" ∨ i = "pipeline_generator.sh")
    (ha : a = none ∨ a = some "") :
    TsVariant.scriptSelector i p a ex
        = [Event.errorNotification "🛑 Required attributes missing"]
      ∧ hasSpawn (TsVariant.scriptSelector i p a ex) = false := by
  rcases hk with h | h | h <;> subst h <;> rcases ha with h | h <;> subst h <;> exact ⟨rfl, rfl⟩

/-- Witness for C1 (amended) at the spec's scenario: pipeline generator with
empty attributes fails with the missing-attributes error and spawns nothing. -/
theorem missingAttributes_known_id_instance :
    TsVariant.scriptSelector "pipeline_generator.sh" (some "/tmp") (some "") exOk
      = [Event.errorNotification "🛑 Required attributes missing"] :=
  (missingAttributes_known_id "pipeline_generator.sh" (some "/tmp") (some "") exOk
    (Or.inr (Or.inr rfl)) (Or.inr rfl)).1

/-- C4 counterexample: on a successful run the promisified dispatcher shows no
panel at all, and the TypeScript variant displays its panel as the very first
event, before the process spawn, not after completion — in neither variant do
notification, stdout logging and a post-completion panel all occur. -/
theorem success_panel_claim_cex :
    hasPanel (Promisified.scriptSelector "create-repo.sh" (some "-a create -n repo-test -d /tmp/x") "/ext" exOkOut) = false
      ∧ TsVariant.createRepoSh "create-repo.sh" (some "/tmp") (some "-x") exOkOut
        = [Event.panel ("<h1>🆙 THE REPO HAS BEEN CREATED !!!</h1>" ++ "<br><p>You can close this tab now.</p>"),
           Event.spawn (TsVariant.buildCommand "create-repo.sh" (some "/tmp") (some "-x"))] := by
  refine ⟨rfl, rfl⟩

/-- C4 amended: in the promisified variant, when the spawned script exits with
code 0 the dispatcher logs the captured stdout and shows an informational
notification distinct per action (containing "CREATING" for create-repo.sh),
and displays no panel; the TypeScript variant's panel is shown before the
spawn, not after completion. -/
theorem success_notification_and_log (a stdout dir : String)
    (ex : String → Except String String)
    (hc : ex (Promisified.buildCommand (Promisified.getScriptRelativePath dir "repositories/github")
          "create-repo.sh" (some a)) = Except.ok stdout)
    (hp : ex (Promisified.buildCommand (Promisified.getScriptRelativePath dir "pipelines/github")
          "pipeline_generator.sh" (some a)) = Except.ok stdout) :
    Promisified.scriptSelector "create-repo.sh" (some a) dir ex
        = [Event.spawn (Promisified.buildCommand (Promisified.getScriptRelativePath dir "repositories/github")
              "create-repo.sh" (some a)),
           Event.logInfo ("STDOUT\n" ++ stdout),
           Event.infoNotification "🆙 CREATING REPO ..."]
      ∧ Promisified.scriptSelector "pipeline_generator.sh" (some a) dir ex
        = [Event.spawn (Promisified.buildCommand (Promisified.getScriptRelativePath dir "pipelines/github")
              "pipeline_generator.sh" (some a)),
           Event.logInfo ("STDOUT\n" ++ stdout),
           Event.infoNotification "⏩ GENERATING PIPELINE ..."]
      ∧ containsStr "🆙 CREATING REPO ..." "CREATING"
      ∧ ("🆙 CREATING REPO ..." : String) ≠ "⏩ GENERATING PIPELINE ..."
      ∧ hasPanel (Promisified.scriptSelector "create-repo.sh" (some a) dir ex) = false := by
  have h1 : Promisified.scriptSelector "create-repo.sh" (some a) dir ex
      = [Event.spawn (Promisified.buildCommand (Promisified.getScriptRelativePath dir "repositories/github")
            "create-repo.sh" (some a)),
         Event.logInfo ("STDOUT\n" ++ stdout),
         Event.infoNotification "🆙 CREATING REPO ..."] := by
    show Promisified.createRepoSh "create-repo.sh" (some a) dir ex = _
    simp only [Promisified.createRepoSh, Promisified.executeScript, hc]
    rfl
  have h2 : Promisified.scriptSelector "pipeline_generator.sh" (some a) dir ex
      = [Event.spawn (Promisified.buildCommand (Promisified.getScriptRelativePath dir "pipelines/github")
            "pipeline_generator.sh" (some a)),
         Event.logInfo ("STDOUT\n" ++ stdout),
         Event.infoNotification "⏩ GENERATING PIPELINE ..."] := by
    show Promisified.pipelineGeneratorSh "pipeline_generator.sh" (some a) dir ex = _
    simp only [Promisified.pipelineGeneratorSh, Promisified.executeScript, hp]
    rfl
  refine ⟨h1, h2, ⟨"🆙 ", " REPO ...", by decide⟩, by decide, ?_⟩
  rw [h1]; rfl

/-- Witness for C4 (amended): a concrete successful run of both actions via an
oracle that always succeeds with a fixed stdout. -/
theorem success_notification_and_log_instance :
    Promisified.scriptSelector "create-repo.sh" (some "-a create -n repo-test -d /tmp/x") "/ext" exOkOut
      = [Event.spawn (Promisified.buildCommand (Promisified.getScriptRelativePath "/ext" "repositories/github")
            "create-repo.sh" (some "-a create -n repo-test -d /tmp/x")),
         Event.logInfo ("STDOUT\n" ++ "sample output"),
         Event.infoNotification "🆙 CREATING REPO ..."] :=
  (success_notification_and_log "-a create -n repo-test -d /tmp/x" "sample output" "/ext" exOkOut
    rfl rfl).1

/-- C5 counterexample: "add-secret.sh" is not in the promisified variant's
mapping — dispatching it with non-empty attributes reports the unknown-id
error and spawns nothing. -/
theorem three_action_mapping_claim_cex :
    Promisified.scriptSelector "add-secret.sh" (some "-x") "/ext" exOk
        = [Event.errorNotification "🛑 No script found for radio button ID: add-secret.sh"]
      ∧ hasSpawn (Promisified.scriptSelector "add-secret.sh" (some "-x") "/ext" exOk) = false := by
  refine ⟨rfl, rfl⟩

/-- C5 amended: for each of the two ids in the promisified variant's mapping
(create-repo.sh → repositories/github, pipeline_generator.sh →
pipelines/github), dispatch with a non-empty attributes string resolves a path
inside the fixed category subdirectory and spawns the mapped script with the
attribute string appended to its command line. -/
theorem known_mapping_resolves_and_spawns (a dir : String)
    (ex : String → Except String String) (ha : a ≠ "") :
    (∃ pre, Promisified.getScriptRelativePath dir "repositories/github"
        = pre ++ "repositories/github")
      ∧ (∃ pre, Promisified.getScriptRelativePath dir "pipelines/github"
          = pre ++ "pipelines/github")
      ∧ hasSpawnOf (Promisified.scriptSelector "create-repo.sh" (some a) dir ex)
          (Promisified.buildCommand (Promisified.getScriptRelativePath dir "repositories/github")
            "create-repo.sh" (some a)) = true
      ∧ hasSpawnOf (Promisified.scriptSelector "pipeline_generator.sh" (some a) dir ex)
          (Promisified.buildCommand (Promisified.getScriptRelativePath dir "pipelines/github")
            "pipeline_generator.sh" (some a)) = true
      ∧ (∃ pre, Promisified.buildCommand (Promisified.getScriptRelativePath dir "repositories/github")
            "create-repo.sh" (some a) = pre ++ a) := by
  refine ⟨⟨dir ++ "/../../scripts/", by simp [Promisified.getScriptRelativePath, String.append_assoc]⟩,
    ⟨dir ++ "/../../scripts/", by simp [Promisified.getScriptRelativePath, String.append_assoc]⟩,
    ?_, ?_, ?_⟩
  · show hasSpawnOf (Promisified.createRepoSh "create-repo.sh" (some a) dir ex) _ = true
    unfold Promisified.createRepoSh Promisified.executeScript
    cases hx : ex (Promisified.buildCommand (Promisified.getScriptRelativePath dir "repositories/github")
        "create-repo.sh" (some a)) <;>
      simp [hasSpawnOf, isSpawnOf, hx]
  · show hasSpawnOf (Promisified.pipelineGeneratorSh "pipeline_generator.sh" (some a) dir ex) _ = true
    unfold Promisified.pipelineGeneratorSh Promisified.executeScript
    cases hx : ex (Promisified.buildCommand (Promisified.getScriptRelativePath dir "pipelines/github")
        "pipeline_generator.sh" (some a)) <;>
      simp [hasSpawnOf, isSpawnOf, hx]
  · exact ⟨"cd " ++ (Promisified.getScriptRelativePath dir "repositories/github")
        ++ " ; ./" ++ "create-repo.sh" ++ " ",
      by simp [Promisified.buildCommand, jsToString, String.append_assoc]⟩

/-- Witness for C5 (amended): concrete dispatch of create-repo.sh with the
spec's attribute string spawns the resolved command. -/
theorem known_mapping_resolves_and_spawns_instance :
    hasSpawnOf (Promisified.scriptSelector "create-repo.sh" (some "-a create -n repo-test -d /tmp/x") "/ext" exOk)
        (Promisified.buildCommand (Promisified.getScriptRelativePath "/ext" "repositories/github")
          "create-repo.sh" (some "-a create -n repo-test -d /tmp/x")) = true :=
  (known_mapping_resolves_and_spawns "-a create -n repo-test -d /tmp/x" "/ext" exOk
    (by decide)).2.2.1

/-- C6: for every known action of either variant, when the spawned process
fails the dispatch shows a user-visible error notification carrying the raw
underlying error text, logs that text, and spawns exactly once (no retry). -/
theorem process_failure_reporting (a dir e : String) (p : Option String)
    (ex : String → Except String String)
    (hfail : ∀ cmd, ex cmd = Except.error e) (ha : a ≠ "") :
    (∀ i, i = "create-repo.sh" ∨ i = "pipeline_generator.sh" →
        hasErrorNotificationOf (Promisified.scriptSelector i (some a) dir ex)
            ("Error: " ++ e) = true
          ∧ hasLogErrorOf (Promisified.scriptSelector i (some a) dir ex)
              ("Error: " ++ e) = true
          ∧ spawnCount (Promisified.scriptSelector i (some a) dir ex) = 1)
      ∧ (∀ i, i = "create-repo.sh" ∨ i = "add-secret.sh" ∨ i = "pipeline_generator.sh" →
          hasErrorNotificationOf (TsVariant.scriptSelector i p (some a) ex)
              ("Error executing script: " ++ e) = true
            ∧ hasLogErrorOf (TsVariant.scriptSelector i p (some a) ex)
                ("Error executing script: " ++ e) = true
            ∧ spawnCount (TsVariant.scriptSelector i p (some a) ex) = 1)
      ∧ (∃ pre, ("Error: " ++ e) = pre ++ e)
      ∧ (∃ pre, ("Error executing script: " ++ e) = pre ++ e) := by
  have hta : jsTruthy (some a) = true := by simpa [jsTruthy] using ha
  refine ⟨?_, ?_, ⟨"Error: ", rfl⟩, ⟨"Error executing script: ", rfl⟩⟩
  · rintro i (rfl | rfl)
    · have hsel : Promisified.scriptSelector "create-repo.sh" (some a) dir ex
          = Promisified.createRepoSh "create-repo.sh" (some a) dir ex := rfl
      rw [hsel]
      unfold Promisified.createRepoSh Promisified.executeScript
      simp [hfail, hasErrorNotificationOf, isErrorNotificationOf,
        hasLogErrorOf, isLogErrorOf, spawnCount, isSpawn]
    · have hsel : Promisified.scriptSelector "pipeline_generator.sh" (some a) dir ex
          = Promisified.pipelineGeneratorSh "pipeline_generator.sh" (some a) dir ex := rfl
      rw [hsel]
      unfold Promisified.pipelineGeneratorSh Promisified.executeScript
      simp [hfail, hasErrorNotificationOf, isErrorNotificationOf,
        hasLogErrorOf, isLogErrorOf, spawnCount, isSpawn]
  · rintro i (rfl | rfl | rfl)
    · have hsel : TsVariant.scriptSelector "create-repo.sh" p (some a) ex
          = TsVariant.createRepoSh "create-repo.sh" p (some a) ex := rfl
      rw [hsel]
      unfold TsVariant.createRepoSh TsVariant.executeScript TsVariant.displayPanel
      simp [hta, hfail, hasErrorNotificationOf, isErrorNotificationOf,
        hasLogErrorOf, isLogErrorOf, spawnCount, isSpawn]
    · have hsel : TsVariant.scriptSelector "add-secret.sh" p (some a) ex
          = TsVariant.addSecretSh "add-secret.sh" p (some a) ex := rfl
      rw [hsel]
      unfold TsVariant.addSecretSh TsVariant.executeScript TsVariant.displayPanel
      simp [hta, hfail, hasErrorNotificationOf, isErrorNotificationOf,
        hasLogErrorOf, isLogErrorOf, spawnCount, isSpawn]
    · have hsel : TsVariant.scriptSelector "pipeline_generator.sh" p (some a) ex
          = TsVariant.pipelineGeneratorSh "pipeline_generator.sh" p (some a) ex := rfl
      rw [hsel]
      unfold TsVariant.pipelineGeneratorSh TsVariant.executeScript TsVariant.displayPanel
      simp [hta, hfail, hasErrorNotificationOf, isErrorNotificationOf,
        hasLogErrorOf, isLogErrorOf, spawnCount, isSpawn]

/-- Witness for C6: a concrete failing oracle makes the dispatch of the
pipeline action in both variants show and log the raw text "boom". -/
theorem process_failure_reporting_instance :
    hasErrorNotificationOf (Promisified.scriptSelector "pipeline_generator.sh" (some "-x") "/ext" exErrBoom)
        ("Error: " ++ "boom") = true
      ∧ hasErrorNotificationOf (TsVariant.scriptSelector "pipeline_generator.sh" (some "/tmp") (some "-x") exErrBoom)
          ("Error executing script: " ++ "boom") = true := by
  have h := process_failure_reporting "-x" "/ext" "boom" (some "/tmp") exErrBoom
    (fun _ => rfl) (by decide)
  exact ⟨(h.1 "pipeline_generator.sh" (Or.inr rfl)).1,
    (h.2.1 "pipeline_generator.sh" (Or.inr (Or.inr rfl))).1⟩

/-- C8: both variants build the executed shell command as exactly the raw
concatenation of "cd ", the script path, " ; ./", the script name, " " and the
attribute text, with no quoting or escaping, so the attribute text reaches the
shell verbatim as the command's tail; in particular a whitespace-only
attributes string still spawns exactly that bare command. -/
theorem command_raw_concatenation (pth n : String) (pO a : Option String) :
    Promisified.buildCommand pth n a = "cd " ++ pth ++ " ; ./" ++ n ++ " " ++ jsToString a
      ∧ TsVariant.buildCommand n pO a = "cd " ++ jsToString pO ++ " ; ./" ++ n ++ " " ++ jsToString a
      ∧ (∃ pre, Promisified.buildCommand pth n a = pre ++ jsToString a)
      ∧ (∀ ex : String → Except String String,
          hasSpawnOf (TsVariant.scriptSelector "create-repo.sh" pO (some " ") ex)
            (TsVariant.buildCommand "create-repo.sh" pO (some " ")) = true) := by
  refine ⟨rfl, rfl,
    ⟨"cd " ++ pth ++ " ; ./" ++ n ++ " ",
      by simp [Promisified.buildCommand, String.append_assoc]⟩, ?_⟩
  intro ex
  show hasSpawnOf (TsVariant.createRepoSh "create-repo.sh" pO (some " ") ex) _ = true
  unfold TsVariant.createRepoSh TsVariant.executeScript
  cases hx : ex (TsVariant.buildCommand "create-repo.sh" pO (some " ")) <;>
    simp [hasSpawnOf, isSpawnOf, jsTruthy, TsVariant.displayPanel, hx]

/-- C9: when the user dismisses the attribute input box the run handler still
calls the dispatcher with the undefined value instead of aborting, and in the
promisified variant a dispatch of a known action with undefined attributes
interpolates it into the command line, spawning the script with the literal
trailing argument "undefined". -/
theorem dismissed_prompt_still_dispatches (i dir : String) (rbs : List RadioButton)
    (ex : String → Except String String)
    (hsel : selectedScriptIds rbs = [i]) :
    runScriptsHandler rbs none ex
        = Event.promptShown "✨ Enter ALL attributes separated by space ..."
            :: TsVariant.scriptSelector i none none ex
      ∧ jsToString none = "undefined"
      ∧ hasSpawnOf (Promisified.scriptSelector "create-repo.sh" none dir ex)
          (Promisified.buildCommand (Promisified.getScriptRelativePath dir "repositories/github")
            "create-repo.sh" none) = true
      ∧ (∃ pre, Promisified.buildCommand (Promisified.getScriptRelativePath dir "repositories/github")
            "create-repo.sh" none = pre ++ " undefined") := by
  refine ⟨?_, rfl, ?_, ?_⟩
  · unfold runScriptsHandler
    rw [hsel]
    rfl
  · show hasSpawnOf (Promisified.createRepoSh "create-repo.sh" none dir ex) _ = true
    unfold Promisified.createRepoSh Promisified.executeScript
    cases hx : ex (Promisified.buildCommand (Promisified.getScriptRelativePath dir "repositories/github")
        "create-repo.sh" none) <;>
      simp [hasSpawnOf, isSpawnOf, hx]
  · have hlit : (" undefined" : String) = " " ++ "undefined" := rfl
    refine ⟨"cd " ++ Promisified.getScriptRelativePath dir "repositories/github"
        ++ " ; ./" ++ "create-repo.sh", ?_⟩
    rw [hlit]
    simp [Promisified.buildCommand, jsToString, String.append_assoc]

/-- Witness for C9: with the create-repo button checked and the input box
dismissed, the handler still invokes the dispatcher with undefined
attributes. -/
theorem dismissed_prompt_still_dispatches_instance :
    runScriptsHandler [{ id := "create-repo.sh", checkboxState := CheckboxState.checked }] none exOk
      = Event.promptShown "✨ Enter ALL attributes separated by space ..."
          :: TsVariant.scriptSelector "create-repo.sh" none none exOk :=
  (dismissed_prompt_still_dispatches "create-repo.sh" "/ext"
    [{ id := "create-repo.sh", checkboxState := CheckboxState.checked }] exOk rfl).1

/-- C10: toggling the same id twice returns the whole Selection Model (and so
every Action's checked state) to its original value, and toggling an unknown
id is a silent no-op. -/
theorem toggle_twice_and_unknown_noop (id : String) (actions : List SelectionModel.Action) :
    SelectionModel.toggle id (SelectionModel.toggle id actions) = actions
      ∧ ((∀ a ∈ actions, a.id ≠ id) → SelectionModel.toggle id actions = actions) := by
  constructor
  · induction actions with
    | nil => rfl
    | cons a as ih =>
        simp only [SelectionModel.toggle, List.map_cons] at ih ⊢
        by_cases h : a.id = id
        · subst h
          simp [Bool.not_not, ih]
        · simp [h, ih]
  · induction actions with
    | nil => intro _; rfl
    | cons a as ih =>
        intro h
        have ha : a.id ≠ id := h a (List.mem_cons_self a as)
        have has : SelectionModel.toggle id as = as :=
          ih fun x hx => h x (List.mem_cons_of_mem a hx)
        simp only [SelectionModel.toggle, List.map_cons] at has ⊢
        simp [ha, has]

/-- Witness for C10: on the concrete catalog of the extension, toggling an
unknown id changes nothing and double-toggling the first entry restores the
catalog. -/
theorem toggle_twice_and_unknown_noop_instance :
    SelectionModel.toggle "nonexistent.sh"
        [{ id := "create-repo.sh", label := "🆙 Create repo (repositories/github)", checked := false },
         { id := "pipeline_generator.sh", label := "⏩ Pipeline generator (pipelines/github)", checked := true }]
      = [{ id := "create-repo.sh", label := "🆙 Create repo (repositories/github)", checked := false },
         { id := "pipeline_generator.sh", label := "⏩ Pipeline generator (pipelines/github)", checked := true }] :=
  (toggle_twice_and_unknown_noop "nonexistent.sh"
    [{ id := "create-repo.sh", label := "🆙 Create repo (repositories/github)", checked := false },
     { id := "pipeline_generator.sh", label := "⏩ Pipeline generator (pipelines/github)", checked := true }]).2
    (by decide)
